import Mathlib

/-!
Shallow embedding of the live-stream recording daemon
(`src/main.rs` of auto-youtube-live-recorder) and proofs about it.

The Rust program polls the YouTube Data API on a cron schedule, resolves a
channel name to a channel id, searches for an active live video, scans the OS
process table for an already-running recorder, and conditionally spawns the
`yt-dlp` recorder subprocess, blocking on its exit.

Modelling conventions:
- Rust `String` is Lean `String`; `i32` fields are `Int` (their values never
  overflow in any claim considered here).
- A JSON object keyed by resolution name (`thumbnails`) is embedded as an
  association list `List (String × Thumbnail)`.
- A Rust panic (`unwrap` failure or out-of-bounds index) is `none` in an
  `Option`-valued result; `some` is normal completion.
- The network is an oracle: a pure function from request URL to the parsed,
  deserialized response.  The `unwrap`s on the HTTP/JSON layer are outside all
  claims, so the oracle returns the parsed response directly.
- The OS process table is a list of `ProcessInfo` (executable name plus full
  argument vector), the read-only view `sysinfo` exposes.
-/

namespace AutoRec

/-- `struct PageInfo` from `main.rs`. -/
structure PageInfo where
  total_results : Int
  results_per_page : Int
deriving DecidableEq, Repr

/-- `struct UserRespItem` from `main.rs`. -/
structure UserRespItem where
  kind : String
  etag : String
  id : String
deriving DecidableEq, Repr

/-- `struct UserResponse` from `main.rs`. -/
structure UserResponse where
  kind : String
  etag : String
  page_info : PageInfo
  items : List UserRespItem
deriving DecidableEq, Repr

/-- `struct Thumbnail` from `main.rs`. -/
structure Thumbnail where
  url : String
  width : Int
  height : Int
deriving DecidableEq, Repr

/-- `struct Snippet` from `main.rs`; `thumbnails : HashMap<String, Thumbnail>`
is embedded as an association list. -/
structure Snippet where
  published_at : String
  channel_id : String
  title : String
  description : String
  thumbnails : List (String × Thumbnail)
  channel_title : String
  live_broadcast_content : String
  publish_time : String
deriving DecidableEq, Repr

/-- `struct Id` from `main.rs` (the structured id of a search result). -/
structure Id where
  kind : String
  video_id : String
deriving DecidableEq, Repr

/-- `struct Item` from `main.rs` (one search result). -/
structure Item where
  kind : String
  etag : String
  id : Id
  snippet : Snippet
deriving DecidableEq, Repr

/-- `struct YoutubeSearchListResponse` from `main.rs`. -/
structure YoutubeSearchListResponse where
  kind : String
  etag : String
  page_info : PageInfo
  items : List Item
deriving DecidableEq, Repr

/-- `fn user_search` from `main.rs`: the channel-lookup request URL. -/
def user_search (api_key : String) (channel : String) : String :=
  "https://www.googleapis.com/youtube/v3/channels?key=" ++ api_key ++
    "&forUsername=" ++ channel ++ "&part=id"

/-- `fn video_search` from `main.rs`: the live-search request URL. -/
def video_search (api_key : String) (user_id : String) : String :=
  "https://www.googleapis.com/youtube/v3/search?part=snippet&channelId=" ++
    user_id ++ "&type=video&eventType=live&key=" ++ api_key

/-- `fn youtube_live_link` from `main.rs`: the watch URL handed to the recorder. -/
def youtube_live_link (video_id : String) : String :=
  "https://www.youtube.com/watch?v=" ++ video_id

/-- One entry of the OS process table as `sysinfo` exposes it: the executable
name and the full argument vector (`process.cmd()`, whose index 0 is the
program itself). -/
structure ProcessInfo where
  name : String
  cmd : List String
deriving DecidableEq, Repr

/-- The literal executable name the dedup scan matches,
`processes_by_exact_name("yt-dlp.exe")` in `main.rs`.  The `yt_dlp` variable
built there with a conditional `.exe` suffix is never used: the scan always
compares against this literal, on every platform. -/
def recorderScanName : String := "yt-dlp.exe"

/-- The `.any` loop of the dedup check over the name-filtered process list,
with the url precomputed: for each process, `process.cmd()[1]` is read first
(`none` models the out-of-bounds panic aborting the tick), then compared with
the url; `.any` short-circuits on the first `true`. -/
def scanForUrl (url : String) : List ProcessInfo → Option Bool
  | [] => some false
  | p :: rest =>
    match p.cmd[1]? with
    | none => none
    | some a => if a = url then some true else scanForUrl url rest

/-- The `.any` loop exactly as the source writes it: the compared url
`youtube_live_link(&search.items[0].id.video_id)` is re-evaluated inside the
closure, after `process.cmd()[1]`, so indexing an empty search list panics
here (models `none`) whenever a name-matching process is scanned. -/
def scanTick (items : List Item) : List ProcessInfo → Option Bool
  | [] => some false
  | p :: rest =>
    match p.cmd[1]? with
    | none => none
    | some a =>
      match items.head? with
      | none => none
      | some it =>
        if a = youtube_live_link it.id.video_id then some true else scanTick items rest

/-- The `is_running` dedup check of `main.rs` for a given url: filter the
process table by exact name `"yt-dlp.exe"`, then scan argument index 1. -/
def is_running (procs : List ProcessInfo) (url : String) : Option Bool :=
  scanForUrl url (procs.filter (fun p => p.name == recorderScanName))

/-- The `is_running` computation as embedded in the tick, where the url is
derived from `search.items[0]` inside the closure. -/
def is_running_tick (procs : List ProcessInfo) (items : List Item) : Option Bool :=
  scanTick items (procs.filter (fun p => p.name == recorderScanName))

/-- The spawn performed by the tick: program, argument vector, and whether
stdout/stderr are inherited from the daemon. -/
structure SpawnRecord where
  program : String
  args : List String
  stdout_inherit : Bool
  stderr_inherit : Bool
deriving DecidableEq, Repr

/-- Observable outcome of one completed tick: the recorder processes spawned
during the tick, and the child exit status logged after `cmd.wait()`
(`none` when no spawn happened and hence nothing was waited on). -/
structure TickResult where
  spawned : List SpawnRecord
  logged_exit_status : Option Int
deriving DecidableEq, Repr

/-- The body of the scheduled job closure (`main.rs` lines 149-193).
`fetchUser`/`fetchSearch` are the network oracle: the parsed JSON response
the two GET requests return for a given request URL.  `procs` is the process
table at scan time and `waitStatus` the exit status `cmd.wait()` eventually
reports if a recorder is spawned.  `none` models a panic aborting the tick:
`user.items[0]` on an empty channel-resolution list, and the panics inside
the dedup scan.  The spawn itself uses the literal program `"yt-dlp"` (no
platform suffix) with the watch URL as the single argument and inherited
stdout/stderr, then blocks on the child and logs its exit status. -/
def tick (fetchUser : String → UserResponse)
    (fetchSearch : String → YoutubeSearchListResponse)
    (api_key channel : String) (procs : List ProcessInfo)
    (waitStatus : Int) : Option TickResult :=
  match (fetchUser (user_search api_key channel)).items.head? with
  | none => none
  | some u0 =>
    match is_running_tick procs (fetchSearch (video_search api_key u0.id)).items with
    | none => none
    | some isRun =>
      if 1 ≤ (fetchSearch (video_search api_key u0.id)).items.length ∧ isRun = false then
        match (fetchSearch (video_search api_key u0.id)).items.head? with
        | none => none
        | some it =>
          some ⟨[⟨"yt-dlp", [youtube_live_link it.id.video_id], true, true⟩],
                some waitStatus⟩
      else
        some ⟨[], none⟩

/-- The detection stage alone (`main.rs` lines 154-168): resolve the channel
name, take `user.items[0].id` as the channel id (panic, `none`, when the
resolution list is empty), issue the search, and report the first search item
(`some none` = completed, channel not live; `some (some it)` = live with
first item `it`). -/
def detect_live (fetchUser : String → UserResponse)
    (fetchSearch : String → YoutubeSearchListResponse)
    (api_key channel : String) : Option (Option Item) :=
  match (fetchUser (user_search api_key channel)).items.head? with
  | none => none
  | some u0 => some ((fetchSearch (video_search api_key u0.id)).items.head?)

/-- Top-level actions of `fn main` in source order.  The ctrl-c registration
(present only under the `signal` cargo feature) and the shutdown handler only
install callbacks; neither blocks. -/
inductive MainStep where
  | parseArgs
  | initLogger
  | newScheduler
  | addJob (cron : String)
  | registerShutdownHandler
  | startScheduler
  | sleepSecs (n : Nat)
  | returnOk
deriving DecidableEq, Repr

/-- `fn main` of `main.rs`: after starting the scheduler it sleeps 10 seconds
and returns `Ok(())`, ending the process; no step waits for an external
signal. -/
def mainSteps : List MainStep :=
  [MainStep.parseArgs, MainStep.initLogger, MainStep.newScheduler,
   MainStep.addJob "1/10 * * * * *", MainStep.registerShutdownHandler,
   MainStep.startScheduler, MainStep.sleepSecs 10, MainStep.returnOk]

/-- `main` runs to its own `return` (rather than blocking forever): its last
step exists and is `returnOk`. -/
def mainTerminatesOnItsOwn : Bool :=
  mainSteps.getLast? == some MainStep.returnOk

/-- The projection of a process the dedup scan can observe: its name and its
argument token at index 1 (`none` when the vector is shorter). -/
def scanKey (p : ProcessInfo) : String × Option String :=
  (p.name, p.cmd[1]?)

/-- The dedup scan rewritten over `scanKey` projections; used to state that
`is_running` inspects nothing of a process beyond its name and argument
index 1. -/
def scanPairs (url : String) : List (String × Option String) → Option Bool
  | [] => some false
  | (n, c) :: rest =>
    if n = recorderScanName then
      match c with
      | none => none
      | some a => if a = url then some true else scanPairs url rest
    else scanPairs url rest

/-! Concrete fixtures: a well-formed channel-lookup response, search
responses, and process-table entries, used to evaluate the model at
specific inputs. -/

/-- A representative search-result snippet. -/
def sampleSnippet : Snippet :=
  ⟨"2024-01-01T00:00:00Z", "UC123", "title", "desc", [], "Acme", "live",
   "2024-01-01T00:00:00Z"⟩

/-- A search item carrying video id `vid`. -/
def sampleItem (vid : String) : Item :=
  ⟨"youtube#searchResult", "etag", ⟨"youtube#video", vid⟩, sampleSnippet⟩

/-- A channel-lookup response resolving to channel id `UC123`. -/
def sampleUserResp : UserResponse :=
  ⟨"youtube#channelListResponse", "etag", ⟨1, 5⟩,
   [⟨"youtube#channel", "etag", "UC123"⟩]⟩

/-- A channel-lookup response with an empty item list. -/
def emptyUserResp : UserResponse :=
  ⟨"youtube#channelListResponse", "etag", ⟨0, 5⟩, []⟩

/-- A search response with the given item list. -/
def searchRespWith (items : List Item) : YoutubeSearchListResponse :=
  ⟨"youtube#searchListResponse", "etag", ⟨Int.ofNat items.length, 5⟩, items⟩

end AutoRec

namespace AutoRec

/-! Helper lemmas about the dedup scan. -/

lemma is_running_cons (p : ProcessInfo) (procs : List ProcessInfo) (url : String) :
    is_running (p :: procs) url =
      if p.name = recorderScanName then
        match p.cmd[1]? with
        | none => none
        | some a => if a = url then some true else is_running procs url
      else is_running procs url := by
  by_cases hname : p.name = recorderScanName
  · simp only [is_running, List.filter_cons, hname, if_pos, beq_self_eq_true, if_true,
      scanForUrl]
  · simp only [is_running, List.filter_cons, if_neg hname]
    rw [if_neg (by simpa using hname)]

lemma is_running_nil (url : String) : is_running [] url = some false := rfl

lemma is_running_eq_scanPairs (procs : List ProcessInfo) (url : String) :
    is_running procs url = scanPairs url (procs.map scanKey) := by
  induction procs with
  | nil => rfl
  | cons p rest ih =>
    rw [is_running_cons, List.map_cons]
    by_cases hname : p.name = recorderScanName
    · cases hc : p.cmd[1]? with
      | none => simp [scanPairs, scanKey, hname, hc]
      | some a => simp [scanPairs, scanKey, hname, hc, ih]
    · simp [scanPairs, scanKey, hname, ih]

lemma is_running_true_iff (procs : List ProcessInfo) (url : String)
    (h : ∀ p ∈ procs, p.name = recorderScanName → 2 ≤ p.cmd.length) :
    is_running procs url = some true ↔
      ∃ p ∈ procs, p.name = recorderScanName ∧ p.cmd[1]? = some url := by
  induction procs with
  | nil => simp [is_running_nil]
  | cons p rest ih =>
    have ihr := ih (fun q hq => h q (List.mem_cons_of_mem p hq))
    rw [is_running_cons]
    by_cases hname : p.name = recorderScanName
    · have hlen : 2 ≤ p.cmd.length := h p (List.mem_cons_self p rest) hname
      obtain ⟨a, ha⟩ : ∃ a, p.cmd[1]? = some a := by
        have h1 : 1 < p.cmd.length := by omega
        exact ⟨p.cmd[1], List.getElem?_eq_getElem h1⟩
      by_cases hau : a = url
      · subst hau
        rw [if_pos hname, ha]
        exact ⟨fun _ => ⟨p, List.mem_cons_self p rest, hname, ha⟩, fun _ => if_pos rfl⟩
      · simp only [if_pos hname, ha, if_neg hau, ihr, List.mem_cons]
        constructor
        · rintro ⟨q, hq, hqn, hqu⟩
          exact ⟨q, Or.inr hq, hqn, hqu⟩
        · rintro ⟨q, hq | hq, hqn, hqu⟩
          · subst hq
            rw [ha] at hqu
            exact absurd (Option.some.inj hqu) hau
          · exact ⟨q, hq, hqn, hqu⟩
    · simp only [if_neg hname, ihr, List.mem_cons]
      constructor
      · rintro ⟨q, hq, hqn, hqu⟩
        exact ⟨q, Or.inr hq, hqn, hqu⟩
      · rintro ⟨q, hq | hq, hqn, hqu⟩
        · subst hq; exact absurd hqn hname
        · exact ⟨q, hq, hqn, hqu⟩

lemma is_running_false_iff (procs : List ProcessInfo) (url : String)
    (h : ∀ p ∈ procs, p.name = recorderScanName → 2 ≤ p.cmd.length) :
    is_running procs url = some false ↔
      ∀ p ∈ procs, p.name = recorderScanName → p.cmd[1]? ≠ some url := by
  induction procs with
  | nil => simp [is_running_nil]
  | cons p rest ih =>
    have ihr := ih (fun q hq => h q (List.mem_cons_of_mem p hq))
    rw [is_running_cons]
    by_cases hname : p.name = recorderScanName
    · have hlen : 2 ≤ p.cmd.length := h p (List.mem_cons_self p rest) hname
      obtain ⟨a, ha⟩ : ∃ a, p.cmd[1]? = some a := by
        have h1 : 1 < p.cmd.length := by omega
        exact ⟨p.cmd[1], List.getElem?_eq_getElem h1⟩
      by_cases hau : a = url
      · subst hau
        rw [if_pos hname, ha]
        constructor
        · intro hfalse
          have hft : (some true : Option Bool) = some false :=
            (if_pos rfl).symm.trans hfalse
          simp at hft
        · intro hall
          exact absurd ha (hall p (List.mem_cons_self p rest) hname)
      · simp only [if_pos hname, ha, if_neg hau, ihr, List.mem_cons]
        constructor
        · rintro hall q (hq | hq) hqn
          · subst hq
            rw [ha]
            intro hcontra
            exact hau (Option.some.inj hcontra)
          · exact hall q hq hqn
        · intro hall q hq hqn
          exact hall q (Or.inr hq) hqn
    · simp only [if_neg hname, ihr, List.mem_cons]
      constructor
      · rintro hall q (hq | hq) hqn
        · subst hq; exact absurd hqn hname
        · exact hall q hq hqn
      · intro hall q hq hqn
        exact hall q (Or.inr hq) hqn

lemma is_running_isSome (procs : List ProcessInfo) (url : String)
    (h : ∀ p ∈ procs, p.name = recorderScanName → 2 ≤ p.cmd.length) :
    (is_running procs url).isSome := by
  induction procs with
  | nil => simp [is_running_nil]
  | cons p rest ih =>
    have ihr := ih (fun q hq => h q (List.mem_cons_of_mem p hq))
    rw [is_running_cons]
    by_cases hname : p.name = recorderScanName
    · have hlen : 2 ≤ p.cmd.length := h p (List.mem_cons_self p rest) hname
      obtain ⟨a, ha⟩ : ∃ a, p.cmd[1]? = some a := by
        have h1 : 1 < p.cmd.length := by omega
        exact ⟨p.cmd[1], List.getElem?_eq_getElem h1⟩
      by_cases hau : a = url
      · simp [hname, ha, hau]
      · simp [hname, ha, hau, ihr]
    · simp [hname, ihr]

lemma is_running_none_of_short (url : String) (pre post : List ProcessInfo)
    (p : ProcessInfo) (hname : p.name = recorderScanName)
    (hlen : p.cmd.length < 2)
    (hpre : ∀ q ∈ pre, q.name = recorderScanName → q.cmd[1]? ≠ some url) :
    is_running (pre ++ p :: post) url = none := by
  induction pre with
  | nil =>
    have hc : p.cmd[1]? = none := List.getElem?_eq_none (by omega)
    rw [List.nil_append, is_running_cons, if_pos hname, hc]
  | cons q rest ih =>
    have ihr := ih (fun r hr => hpre r (List.mem_cons_of_mem q hr))
    rw [List.cons_append, is_running_cons]
    by_cases hq : q.name = recorderScanName
    · cases hcq : q.cmd[1]? with
      | none => simp [hq, hcq]
      | some a =>
        have hne : a ≠ url := by
          intro e
          exact hpre q (List.mem_cons_self q rest) hq (by rw [hcq, e])
        simp [hq, hcq, hne, ihr]
    · simp [hq, ihr]

lemma scanTick_eq_scanForUrl (it : Item) (rest : List Item)
    (l : List ProcessInfo) :
    scanTick (it :: rest) l = scanForUrl (youtube_live_link it.id.video_id) l := by
  induction l with
  | nil => rfl
  | cons p tail ih =>
    cases hc : p.cmd[1]? with
    | none => simp [scanTick, scanForUrl, hc]
    | some a => simp [scanTick, scanForUrl, hc, List.head?_cons, ih]

lemma is_running_tick_eq (procs : List ProcessInfo) (it : Item) (rest : List Item) :
    is_running_tick procs (it :: rest) =
      is_running procs (youtube_live_link it.id.video_id) := by
  rw [is_running_tick, is_running, scanTick_eq_scanForUrl]

/-! Helper lemmas about the tick. -/

lemma tick_spawn_eq (fU : String → UserResponse)
    (fS : String → YoutubeSearchListResponse) (k c : String)
    (procs : List ProcessInfo) (st : Int) (u0 : UserRespItem)
    (urest : List UserRespItem) (it : Item) (irest : List Item)
    (hu : (fU (user_search k c)).items = u0 :: urest)
    (hs : (fS (video_search k u0.id)).items = it :: irest)
    (hrun : is_running_tick procs (fS (video_search k u0.id)).items = some false) :
    tick fU fS k c procs st =
      some ⟨[⟨"yt-dlp", [youtube_live_link it.id.video_id], true, true⟩],
            some st⟩ := by
  have hcond : 1 ≤ (fS (video_search k u0.id)).items.length ∧ True := by
    rw [hs, List.length_cons]
    exact ⟨by omega, trivial⟩
  simp only [tick, hu, List.head?_cons, hrun]
  rw [if_pos hcond]
  simp only [hs, List.head?_cons]

lemma tick_no_spawn_eq (fU : String → UserResponse)
    (fS : String → YoutubeSearchListResponse) (k c : String)
    (procs : List ProcessInfo) (st : Int) (u0 : UserRespItem)
    (urest : List UserRespItem)
    (hu : (fU (user_search k c)).items = u0 :: urest)
    (hrun : is_running_tick procs (fS (video_search k u0.id)).items = some true) :
    tick fU fS k c procs st = some ⟨[], none⟩ := by
  simp only [tick, hu, List.head?_cons, hrun]
  rw [if_neg (fun hc => absurd hc.2 (by decide))]

lemma tick_none_of_scan_panic (fU : String → UserResponse)
    (fS : String → YoutubeSearchListResponse) (k c : String)
    (procs : List ProcessInfo) (st : Int) (u0 : UserRespItem)
    (urest : List UserRespItem)
    (hu : (fU (user_search k c)).items = u0 :: urest)
    (hrun : is_running_tick procs (fS (video_search k u0.id)).items = none) :
    tick fU fS k c procs st = none := by
  simp only [tick, hu, List.head?_cons, hrun]

end AutoRec

/-- C7: for every API key and channel name the channel-lookup URL is the
channels endpoint with parameters `key`, `forUsername`, `part=id`, and for
every API key and channel id the search URL is the search endpoint with
parameters `part=snippet`, `channelId`, `type=video`, `eventType=live`, `key`;
the inputs are embedded verbatim and unvalidated (any strings are spliced
in as given). -/
theorem C7_request_urls (api_key channel user_id : String) :
    AutoRec.user_search api_key channel =
      "https://www.googleapis.com/youtube/v3/channels?key=" ++ api_key ++
        "&forUsername=" ++ channel ++ "&part=id" ∧
    AutoRec.video_search api_key user_id =
      "https://www.googleapis.com/youtube/v3/search?part=snippet&channelId=" ++
        user_id ++ "&type=video&eventType=live&key=" ++ api_key :=
  ⟨rfl, rfl⟩

open AutoRec

/-- C1 (code evaluation at the failing input): with an empty search-result
list the tick completes normally with no spawn only when no process named
`yt-dlp.exe` exists; if such a process is running, the dedup closure indexes
`search.items[0]` on the empty list and the tick aborts (panics) instead of
completing, contradicting the claim that every empty-search tick completes
normally. -/
theorem C1_empty_search_tick :
    tick (fun _ => sampleUserResp) (fun _ => searchRespWith []) "key" "Acme"
      [] 0 = some ⟨[], none⟩ ∧
    tick (fun _ => sampleUserResp) (fun _ => searchRespWith []) "key" "Acme"
      [⟨"yt-dlp.exe", ["yt-dlp.exe", "-q"]⟩] 0 = none := by
  constructor
  · rfl
  · rfl

/-- C2 counterexample: a process whose name is exactly the scanned recorder
name and whose argument tokens contain the exact live-video URL (at index 2,
after a `-q` flag), for which the dedup check nevertheless returns `false`
because it compares only the token at index 1. -/
theorem C2_counterexample_url_not_at_index1 :
    is_running [⟨"yt-dlp.exe", ["yt-dlp.exe", "-q", youtube_live_link "abcXYZ"]⟩]
        (youtube_live_link "abcXYZ") = some false ∧
    (ProcessInfo.mk "yt-dlp.exe" ["yt-dlp.exe", "-q", youtube_live_link "abcXYZ"]).name
        = recorderScanName ∧
    youtube_live_link "abcXYZ" ∈
      (ProcessInfo.mk "yt-dlp.exe" ["yt-dlp.exe", "-q", youtube_live_link "abcXYZ"]).cmd := by
  refine ⟨by decide, rfl, by decide⟩

/-- C2 (amended): when every process named exactly `"yt-dlp.exe"` has at
least two argument tokens, the dedup check returns true iff some such process
has the exact live-video URL as its argument token at index 1, and returns
false iff no such process does (in particular when no process of that name
exists at all). -/
theorem C2_is_running_characterization (procs : List ProcessInfo) (url : String)
    (h : ∀ p ∈ procs, p.name = recorderScanName → 2 ≤ p.cmd.length) :
    (is_running procs url = some true ↔
      ∃ p ∈ procs, p.name = recorderScanName ∧ p.cmd[1]? = some url) ∧
    (is_running procs url = some false ↔
      ∀ p ∈ procs, p.name = recorderScanName → p.cmd[1]? ≠ some url) :=
  ⟨is_running_true_iff procs url h, is_running_false_iff procs url h⟩

/-- C2 witness: the characterization applied at concrete process tables. -/
theorem C2_witness :
    is_running [⟨"bash", ["bash", "x"]⟩] "u" = some false ∧
    is_running [⟨"yt-dlp.exe", ["yt-dlp.exe", "u"]⟩] "u" = some true := by
  constructor
  · exact (C2_is_running_characterization [⟨"bash", ["bash", "x"]⟩] "u"
      (by decide)).2.mpr (by decide)
  · exact (C2_is_running_characterization [⟨"yt-dlp.exe", ["yt-dlp.exe", "u"]⟩] "u"
      (by decide)).1.mpr
      ⟨⟨"yt-dlp.exe", ["yt-dlp.exe", "u"]⟩, List.mem_cons_self _ _, rfl, rfl⟩

/-- C3: whenever the channel resolution returns a non-empty list, the search
returns at least one item, and the dedup check reports no matching recorder,
the tick spawns exactly one recorder process, whose single positional
argument is `https://www.youtube.com/watch?v=` followed by the first search
item's video id, with stdout and stderr inherited. -/
theorem C3_spawns_exactly_once (fU : String → UserResponse)
    (fS : String → YoutubeSearchListResponse) (k c : String)
    (procs : List ProcessInfo) (st : Int) (u0 : UserRespItem)
    (urest : List UserRespItem) (it : Item) (irest : List Item)
    (hu : (fU (user_search k c)).items = u0 :: urest)
    (hs : (fS (video_search k u0.id)).items = it :: irest)
    (hrun : is_running_tick procs (fS (video_search k u0.id)).items = some false) :
    tick fU fS k c procs st =
      some ⟨[⟨"yt-dlp", [youtube_live_link it.id.video_id], true, true⟩],
            some st⟩ :=
  tick_spawn_eq fU fS k c procs st u0 urest it irest hu hs hrun

/-- C3 witness: a live channel with video id `abcXYZ` and an empty process
table spawns one recorder with the watch URL. -/
theorem C3_witness :
    tick (fun _ => sampleUserResp) (fun _ => searchRespWith [sampleItem "abcXYZ"])
      "k" "c" [] 7 =
      some ⟨[⟨"yt-dlp", [youtube_live_link "abcXYZ"], true, true⟩], some 7⟩ :=
  C3_spawns_exactly_once (fun _ => sampleUserResp)
    (fun _ => searchRespWith [sampleItem "abcXYZ"]) "k" "c" [] 7
    ⟨"youtube#channel", "etag", "UC123"⟩ [] (sampleItem "abcXYZ") [] rfl rfl rfl

/-- C4: whenever the dedup check reports that a matching recorder process
already exists, the tick completes with no spawn, regardless of the search
result (live status). -/
theorem C4_dedup_blocks_spawn (fU : String → UserResponse)
    (fS : String → YoutubeSearchListResponse) (k c : String)
    (procs : List ProcessInfo) (st : Int) (u0 : UserRespItem)
    (urest : List UserRespItem)
    (hu : (fU (user_search k c)).items = u0 :: urest)
    (hrun : is_running_tick procs (fS (video_search k u0.id)).items = some true) :
    tick fU fS k c procs st = some ⟨[], none⟩ :=
  tick_no_spawn_eq fU fS k c procs st u0 urest hu hrun

/-- C4 witness: with a recorder already holding the watch URL at argument
index 1, the tick spawns nothing. -/
theorem C4_witness :
    tick (fun _ => sampleUserResp) (fun _ => searchRespWith [sampleItem "abcXYZ"])
      "k" "c" [⟨"yt-dlp.exe", ["yt-dlp.exe", youtube_live_link "abcXYZ"]⟩] 0 =
      some ⟨[], none⟩ :=
  C4_dedup_blocks_spawn (fun _ => sampleUserResp)
    (fun _ => searchRespWith [sampleItem "abcXYZ"]) "k" "c"
    [⟨"yt-dlp.exe", ["yt-dlp.exe", youtube_live_link "abcXYZ"]⟩] 0
    ⟨"youtube#channel", "etag", "UC123"⟩ [] rfl (by decide)

/-- C5 (code evaluation): `main` terminates on its own — its top-level step
sequence ends in `returnOk`, reached unconditionally after a 10-second sleep,
with no step that waits for an external shutdown signal; the claim that the
daemon keeps firing indefinitely until an external signal is received is
contradicted by the code. -/
theorem C5_daemon_self_terminates :
    mainTerminatesOnItsOwn = true ∧ MainStep.sleepSecs 10 ∈ mainSteps := by
  decide

/-- C6: if channel-id resolution returns an empty item list the detection
stage panics (aborts the tick); if the list is non-empty, the first item's id
is used as the channel id of the search request and detection completes at
that step, returning the first search item (or "not live" on an empty search
list). -/
theorem C6_channel_resolution (fU : String → UserResponse)
    (fS : String → YoutubeSearchListResponse) (k c : String) :
    ((fU (user_search k c)).items = [] → detect_live fU fS k c = none) ∧
    (∀ u0 urest, (fU (user_search k c)).items = u0 :: urest →
      detect_live fU fS k c =
        some ((fS (video_search k u0.id)).items.head?)) := by
  constructor
  · intro h
    simp only [detect_live, h, List.head?_nil]
  · intro u0 urest h
    simp only [detect_live, h, List.head?_cons]

/-- C6 witness: empty resolution panics; a resolution to `UC123` queries the
search endpoint for `UC123` and completes. -/
theorem C6_witness :
    detect_live (fun _ => emptyUserResp) (fun _ => searchRespWith []) "k" "c" =
      none ∧
    detect_live (fun _ => sampleUserResp)
        (fun _ => searchRespWith [sampleItem "abcXYZ"]) "k" "c" =
      some (some (sampleItem "abcXYZ")) := by
  constructor
  · exact (C6_channel_resolution (fun _ => emptyUserResp)
      (fun _ => searchRespWith []) "k" "c").1 rfl
  · exact (C6_channel_resolution (fun _ => sampleUserResp)
      (fun _ => searchRespWith [sampleItem "abcXYZ"]) "k" "c").2
      ⟨"youtube#channel", "etag", "UC123"⟩ [] rfl

/-- C8: detection is deterministic in its upstream inputs: two runs whose
oracles return identical responses for the channel-lookup URL and for every
search URL produce the same live-video result. -/
theorem C8_detection_deterministic (fU fU2 : String → UserResponse)
    (fS fS2 : String → YoutubeSearchListResponse) (k c : String)
    (hU : fU2 (user_search k c) = fU (user_search k c))
    (hS : ∀ uid : String, fS2 (video_search k uid) = fS (video_search k uid)) :
    detect_live fU2 fS2 k c = detect_live fU fS k c := by
  simp only [detect_live, hU]
  cases (fU (user_search k c)).items.head? with
  | none => rfl
  | some u0 => simp only [hS]

/-- An oracle for the C8 witness that agrees with
`fun _ => sampleUserResp` on the queried channel-lookup URL but differs
elsewhere. -/
def fUw : String → UserResponse :=
  fun s => if s = user_search "k" "c" then sampleUserResp else emptyUserResp

/-- C8 witness: two syntactically different oracle pairs that agree on the
queried URLs give identical detection results. -/
theorem C8_witness :
    detect_live fUw (fun _ => searchRespWith [sampleItem "abcXYZ"]) "k" "c" =
      detect_live (fun _ => sampleUserResp)
        (fun _ => searchRespWith [sampleItem "abcXYZ"]) "k" "c" :=
  C8_detection_deterministic (fun _ => sampleUserResp) fUw
    (fun _ => searchRespWith [sampleItem "abcXYZ"])
    (fun _ => searchRespWith [sampleItem "abcXYZ"]) "k" "c"
    (by simp [fUw]) (fun _ => rfl)

/-- C9: once the spawn conditions hold, the tick consumes the child's exit
status (it blocks on `cmd.wait()`), logs exactly that status, and completes
normally whatever the status value is, zero or non-zero. -/
theorem C9_blocking_wait_logs_status (fU : String → UserResponse)
    (fS : String → YoutubeSearchListResponse) (k c : String)
    (procs : List ProcessInfo) (u0 : UserRespItem)
    (urest : List UserRespItem) (it : Item) (irest : List Item)
    (hu : (fU (user_search k c)).items = u0 :: urest)
    (hs : (fS (video_search k u0.id)).items = it :: irest)
    (hrun : is_running_tick procs (fS (video_search k u0.id)).items = some false) :
    ∀ st : Int, (tick fU fS k c procs st).map TickResult.logged_exit_status =
      some (some st) := by
  intro st
  rw [tick_spawn_eq fU fS k c procs st u0 urest it irest hu hs hrun]
  rfl

/-- C9 witness: a non-zero recorder exit status (1) is logged and the tick
still completes. -/
theorem C9_witness :
    (tick (fun _ => sampleUserResp)
        (fun _ => searchRespWith [sampleItem "abcXYZ"]) "k" "c" [] 1).map
      TickResult.logged_exit_status = some (some 1) :=
  C9_blocking_wait_logs_status (fun _ => sampleUserResp)
    (fun _ => searchRespWith [sampleItem "abcXYZ"]) "k" "c" []
    ⟨"youtube#channel", "etag", "UC123"⟩ [] (sampleItem "abcXYZ") [] rfl rfl rfl 1

/-- C10 counterexample: a `yt-dlp.exe`-named process with fewer than two
argument tokens in the table, yet the dedup check returns `some true` and the
tick completes (no failure), because a preceding matching process
short-circuits the scan before the short one is inspected. -/
theorem C10_counterexample_short_circuit :
    (ProcessInfo.mk "yt-dlp.exe" ["yt-dlp.exe"]).name = recorderScanName ∧
    (ProcessInfo.mk "yt-dlp.exe" ["yt-dlp.exe"]).cmd.length < 2 ∧
    is_running
      [⟨"yt-dlp.exe", ["yt-dlp.exe", youtube_live_link "abcXYZ"]⟩,
       ⟨"yt-dlp.exe", ["yt-dlp.exe"]⟩]
      (youtube_live_link "abcXYZ") = some true ∧
    tick (fun _ => sampleUserResp) (fun _ => searchRespWith [sampleItem "abcXYZ"])
      "k" "c"
      [⟨"yt-dlp.exe", ["yt-dlp.exe", youtube_live_link "abcXYZ"]⟩,
       ⟨"yt-dlp.exe", ["yt-dlp.exe"]⟩] 0 ≠ none := by
  refine ⟨rfl, by decide, by decide, by decide⟩

/-- C10 (amended): the dedup check inspects, of each process, only its name
and its argument token at index 1 (`is_running` factors through `scanKey`);
a `yt-dlp.exe`-named process with fewer than two argument tokens aborts the
check (and hence the tick, which propagates the panic) whenever no
earlier-scanned `yt-dlp.exe` process already matched the URL at index 1; and
the check is total whenever every `yt-dlp.exe`-named process has at least two
argument tokens. -/
theorem C10_index1_only_and_totality (url : String) :
    (∀ procs : List ProcessInfo,
        is_running procs url = scanPairs url (procs.map scanKey)) ∧
    (∀ pre post (p : ProcessInfo), p.name = recorderScanName →
        p.cmd.length < 2 →
        (∀ q ∈ pre, q.name = recorderScanName → q.cmd[1]? ≠ some url) →
        is_running (pre ++ p :: post) url = none) ∧
    (∀ procs : List ProcessInfo,
        (∀ q ∈ procs, q.name = recorderScanName → 2 ≤ q.cmd.length) →
        (is_running procs url).isSome) ∧
    (∀ (fU : String → UserResponse) (fS : String → YoutubeSearchListResponse)
        (k c : String) (procs : List ProcessInfo) (st : Int)
        (u0 : UserRespItem) (urest : List UserRespItem),
        (fU (user_search k c)).items = u0 :: urest →
        is_running_tick procs (fS (video_search k u0.id)).items = none →
        tick fU fS k c procs st = none) :=
  ⟨fun procs => is_running_eq_scanPairs procs url,
   fun pre post p h1 h2 h3 => is_running_none_of_short url pre post p h1 h2 h3,
   fun procs h => is_running_isSome procs url h,
   fun fU fS k c procs st u0 urest hu hrun =>
     tick_none_of_scan_panic fU fS k c procs st u0 urest hu hrun⟩

/-- C10 witness: a lone short-argument `yt-dlp.exe` process aborts the scan
(and a tick containing it), while a table of well-formed processes keeps the
scan total. -/
theorem C10_witness :
    is_running [⟨"yt-dlp.exe", ["yt-dlp.exe"]⟩] "u" = none ∧
    (is_running [⟨"yt-dlp.exe", ["yt-dlp.exe", "x"]⟩] "u").isSome ∧
    tick (fun _ => sampleUserResp) (fun _ => searchRespWith [sampleItem "abcXYZ"])
      "k" "c" [⟨"yt-dlp.exe", ["yt-dlp.exe"]⟩] 0 = none := by
  refine ⟨?_, ?_, ?_⟩
  · exact (C10_index1_only_and_totality "u").2.1 [] []
      ⟨"yt-dlp.exe", ["yt-dlp.exe"]⟩ rfl (by decide) (by decide)
  · exact (C10_index1_only_and_totality "u").2.2.1
      [⟨"yt-dlp.exe", ["yt-dlp.exe", "x"]⟩] (by decide)
  · exact (C10_index1_only_and_totality "u").2.2.2
      (fun _ => sampleUserResp) (fun _ => searchRespWith [sampleItem "abcXYZ"])
      "k" "c" [⟨"yt-dlp.exe", ["yt-dlp.exe"]⟩] 0
      ⟨"youtube#channel", "etag", "UC123"⟩ [] rfl (by decide)
